import Mathlib

/-!
Shallow embedding of the authentication core of the `authentication_react`
single-page client: the Authentication State Store
(`src/components/AuthenticationProvider.tsx`), the user domain mapping
(`src/domains/user.ts`, `src/domains/role.ts`), the route-guard pieces
(`src/routes/_protected/route.tsx`, `src/routes/_unprotected/authenticating.tsx`,
`src/routes/_unprotected/login.tsx`) and the transport-level auth interceptor
(`src/lib/authInterceptor.ts`).

JavaScript `undefined | null | T` fields are embedded as the three-valued
`Tri` type; rejected promises and thrown errors are embedded as an explicit
`Option String` result component (`some msg` = the async function rejects with
an Error carrying `msg`, `none` = it resolves normally); React `setState`
pairs that occur in the same synchronous segment are embedded as a single
record update.
-/

namespace AuthReact

/-- Three-valued JavaScript field: `undefined` (absent), `null`, or a value. -/
inductive Tri (α : Type) where
  | absent : Tri α
  | null : Tri α
  | val (a : α) : Tri α
deriving DecidableEq, Repr

/-- JavaScript truthiness of an `undefined | null | object` value: objects are
always truthy, `undefined` and `null` are falsy (the `!!currentUser` test). -/
def Tri.truthy : Tri α → Bool
  | .val _ => true
  | _ => false

/-- `src/domains/role.ts`: `enum Role { Admin = "admin", User = "user", Guest = "guest" }`. -/
inductive Role where
  | admin
  | user
  | guest
deriving DecidableEq, Repr

/-- The wire string of a role, i.e. the string value of the TS enum member. -/
def Role.toWire : Role → String
  | .admin => "admin"
  | .user => "user"
  | .guest => "guest"

/-- `Object.values(Role)` in declaration order. -/
def roleValues : List String := ["admin", "user", "guest"]

/-- `src/domains/role.ts` `isRole`: `Object.values(Role).includes(value)`. -/
def isRole (value : String) : Bool := roleValues.contains value

/-- Inverse of `Role.toWire` on the enum's values; the TS code reaches this
only after an `includes` check, so the fallback branch is never observed. -/
def roleOfWire (value : String) : Role :=
  if value = "admin" then .admin
  else if value = "user" then .user
  else if value = "guest" then .guest
  else .user

/-- A JavaScript `Date`: either `new Date(s)` from a string or `new Date(ms)`
from a millisecond count (`new Date(0)` is the epoch sentinel). -/
inductive JsDate where
  | ofString (s : String)
  | ofMillis (ms : Int)
deriving DecidableEq, Repr

/-- The gRPC `UserResponse` message consumed by `userFromUserResponse`
(proto3: `role` is a plain string field, `createdOn` is optional). -/
structure UserResponse where
  id : String
  email : String
  name : String
  role : String
  isActive : Bool
  isVerified : Bool
  createdOn : Option String
deriving DecidableEq, Repr

/-- `src/domains/user.ts` `User` domain type. -/
structure User where
  id : String
  email : String
  name : String
  role : Role
  isActive : Bool
  isVerified : Bool
  createdOn : JsDate
deriving DecidableEq, Repr

/-- `src/domains/user.ts` `userFromUserResponse`: maps a gRPC `UserResponse`
to a domain `User`; the role falls back to `Role.User` when the wire string is
not a member of the enum, and a missing/empty `createdOn` maps to `new Date(0)`. -/
def userFromUserResponse (rpc : UserResponse) : User :=
  { id := rpc.id
    email := rpc.email
    name := rpc.name
    role := if isRole rpc.role then roleOfWire rpc.role else Role.user
    isActive := rpc.isActive
    isVerified := rpc.isVerified
    createdOn :=
      match rpc.createdOn with
      | some s => if s = "" then .ofMillis 0 else .ofString s
      | none => .ofMillis 0 }

/-- Shape of the transport `LoginResponse` / `RefreshResponse`: a proto3
string `accessToken` (default `""`) and an optional `user` payload. -/
structure AuthResponse where
  accessToken : String
  user : Option UserResponse
deriving DecidableEq, Repr

/-- Shape of the transport `LogoutResponse`. -/
structure LogoutResponse where
  success : Bool
deriving DecidableEq, Repr

/-- Outcome of an awaited transport call: it resolves with a value or rejects
with an error message. -/
inductive Outcome (α : Type) where
  | ok (a : α) : Outcome α
  | err (e : String) : Outcome α
deriving DecidableEq, Repr

/-- The `AUTHENTICATION_ERRORS` constant object of `AuthenticationProvider.tsx`. -/
structure AuthenticationErrors where
  INVALID_LOGIN : String
  INVALID_REFRESH : String
  CONTEXT_ERROR : String
  INVALID_LOGOUT : String

def AUTHENTICATION_ERRORS : AuthenticationErrors :=
  { INVALID_LOGIN := "Login request failed."
    INVALID_REFRESH := "Refresh of access token failed."
    CONTEXT_ERROR := "useAuth must be used inside of a AuthProvider"
    INVALID_LOGOUT := "Logout request failed." }

/-- The Session held by `AuthenticationProvider`: the `isLoading`,
`accessToken` and `currentUser` `useState` cells. -/
structure Session where
  isLoading : Bool
  accessToken : Tri String
  currentUser : Tri User
deriving DecidableEq, Repr

/-- Initial provider state: `useState(true)` for `isLoading`, the other two
cells start `undefined`. -/
def initialSession : Session :=
  { isLoading := true, accessToken := .absent, currentUser := .absent }

/-- Derived `isAuthenticated = !!currentUser`. -/
def Session.isAuthenticated (s : Session) : Bool := s.currentUser.truthy

/-- The state observable while an operation is suspended at its transport
`await`, after its `setIsLoading(true)` and before its `finally`. -/
def inFlight (s : Session) : Session := { s with isLoading := true }

/-- The provider's success test, negated:
`!response.accessToken || response.user === undefined`. -/
def authResponseIncomplete (r : AuthResponse) : Bool :=
  r.accessToken = "" || r.user.isNone

/-- A failing authentication call in the sense of the spec: the transport
rejects, or it resolves with a structurally incomplete response. -/
def authCallFails (t : Outcome AuthResponse) : Bool :=
  match t with
  | .err _ => true
  | .ok r => authResponseIncomplete r

/-- A failing logout call: the transport rejects, or resolves with
`success: false`. -/
def logoutCallFails (t : Outcome LogoutResponse) : Bool :=
  match t with
  | .err _ => true
  | .ok r => !r.success

/-- `refreshAccessToken` of `AuthenticationProvider.tsx` (the bootstrap
refresh): `t` is the outcome of the awaited `sendRefreshRequest()`. Returns
the final Session together with the error the async function rejects with
(`none`: the catch block swallows every failure). -/
def refreshAccessToken (s : Session) (t : Outcome AuthResponse) :
    Session × Option String :=
  let s1 := inFlight s
  let step : Session × Option String :=
    match t with
    | .err _ =>
      ({ s1 with accessToken := .null, currentUser := .null }, none)
    | .ok r =>
      match r.user with
      | none =>
        ({ s1 with accessToken := .null, currentUser := .null }, none)
      | some u =>
        if r.accessToken = "" then
          ({ s1 with accessToken := .null, currentUser := .null }, none)
        else
          ({ s1 with accessToken := .val r.accessToken,
                     currentUser := .val (userFromUserResponse u) }, none)
  ({ step.1 with isLoading := false }, step.2)

/-- `handleLogin` of `AuthenticationProvider.tsx`: `t` is the outcome of the
awaited `sendLoginRequest(email, password)`. On any failure the catch block
sets both cells to `null` and re-throws. -/
def handleLogin (s : Session) (email password : String)
    (t : Outcome AuthResponse) : Session × Option String :=
  let _ := email
  let _ := password
  let s1 := inFlight s
  let step : Session × Option String :=
    match t with
    | .err e =>
      ({ s1 with accessToken := .null, currentUser := .null }, some e)
    | .ok r =>
      match r.user with
      | none =>
        ({ s1 with accessToken := .null, currentUser := .null },
          some AUTHENTICATION_ERRORS.INVALID_LOGIN)
      | some u =>
        if r.accessToken = "" then
          ({ s1 with accessToken := .null, currentUser := .null },
            some AUTHENTICATION_ERRORS.INVALID_LOGIN)
        else
          ({ s1 with accessToken := .val r.accessToken,
                     currentUser := .val (userFromUserResponse u) }, none)
  ({ step.1 with isLoading := false }, step.2)

/-- `handleLogout` of `AuthenticationProvider.tsx`: `t` is the outcome of the
awaited `sendLogoutRequest()`. The catch block re-throws without touching the
token or user cells. -/
def handleLogout (s : Session) (t : Outcome LogoutResponse) :
    Session × Option String :=
  let s1 := inFlight s
  let step : Session × Option String :=
    match t with
    | .err e => (s1, some e)
    | .ok r =>
      if r.success then
        ({ s1 with accessToken := .null, currentUser := .null }, none)
      else
        (s1, some AUTHENTICATION_ERRORS.INVALID_LOGOUT)
  ({ step.1 with isLoading := false }, step.2)

/-- Sessions reachable from the provider's initial state through the three
mutating operations, including the in-flight state each operation exposes
while suspended at its transport call. -/
inductive Reachable : Session → Prop where
  | init : Reachable initialSession
  | inflight {s : Session} : Reachable s → Reachable (inFlight s)
  | refresh {s : Session} (t : Outcome AuthResponse) :
      Reachable s → Reachable (refreshAccessToken s t).1
  | login {s : Session} (email password : String) (t : Outcome AuthResponse) :
      Reachable s → Reachable (handleLogin s email password t).1
  | logout {s : Session} (t : Outcome LogoutResponse) :
      Reachable s → Reachable (handleLogout s t).1

/-! ## Route guard: redirect schemas, protected-route check, authenticating gate -/

/-- One hexadecimal digit, uppercase, as produced by `encodeURIComponent`. -/
def hexDigitChar (n : Nat) : Char :=
  if n < 10 then Char.ofNat (48 + n) else Char.ofNat (55 + n)

/-- UTF-8 byte expansion of a Unicode code point. -/
def utf8Bytes (n : Nat) : List Nat :=
  if n < 128 then [n]
  else if n < 2048 then [192 + n / 64, 128 + n % 64]
  else if n < 65536 then [224 + n / 4096, 128 + (n / 64) % 64, 128 + n % 64]
  else [240 + n / 262144, 128 + (n / 4096) % 64, 128 + (n / 64) % 64,
        128 + n % 64]

/-- Characters `encodeURIComponent` leaves unescaped (ECMA-262):
letters, digits, and `- _ . ! ~ * ( )` together with the apostrophe
(code points 45, 95, 46, 33, 126, 42, 39, 40, 41). -/
def uriUnreserved (c : Char) : Bool :=
  c.isAlpha || c.isDigit ||
    [45, 95, 46, 33, 126, 42, 39, 40, 41].contains c.toNat

/-- Percent-escape of one byte: `%` (code 37) then two uppercase hex digits. -/
def percentEncodeByte (b : Nat) : List Char :=
  [Char.ofNat 37, hexDigitChar (b / 16), hexDigitChar (b % 16)]

/-- `encodeURIComponent` on one character. -/
def encodeChar (c : Char) : List Char :=
  if uriUnreserved c then [c]
  else ((utf8Bytes c.toNat).map percentEncodeByte).flatten

/-- `encodeURIComponent` over a character list. -/
def encodeList : List Char → List Char
  | [] => []
  | c :: cs => encodeChar c ++ encodeList cs

/-- The ECMAScript `encodeURIComponent` builtin used by the protected route. -/
def encodeURIComponent (s : String) : String := String.mk (encodeList s.data)

/-- The closed enumeration of the authenticating route's redirect schema:
`z.enum(["/", "/account", "/users"])` in `authenticating.tsx`. -/
def authenticatingRedirectPaths : List String := ["/", "/account", "/users"]

/-- `redirectSearchSchema.parse` of `authenticating.tsx` on the raw `redirect`
search value (`none` = parameter missing): the zod `.catch("/")` replaces any
value outside the enum by `"/"`. -/
def redirectSearchSchemaAuthenticating (redirect : Option String) : String :=
  match redirect with
  | some v => if authenticatingRedirectPaths.contains v then v else "/"
  | none => "/"

/-- The closed enumeration of the login route's redirect schema:
`z.enum(["/", "/account"])` in `login.tsx`. -/
def loginRedirectPaths : List String := ["/", "/account"]

/-- `redirectSearchSchema.parse` of `login.tsx` with its `.catch("/")`. -/
def redirectSearchSchemaLogin (redirect : Option String) : String :=
  match redirect with
  | some v => if loginRedirectPaths.contains v then v else "/"
  | none => "/"

/-- A `throw redirect({to, search: {redirect}})` value raised by a
`beforeLoad`. -/
structure RedirectThrow where
  dest : String
  redirect : Option String
deriving DecidableEq, Repr

/-- `beforeLoad` of `src/routes/_protected/route.tsx`: when not authenticated,
throw a redirect to `/authenticating` carrying
`encodeURIComponent(location.href)` as the `redirect` search value; otherwise
proceed (`none`). -/
def protectedBeforeLoad (isAuthenticated : Bool) (locationHref : String) :
    Option RedirectThrow :=
  if !isAuthenticated then
    some { dest := "/authenticating"
           redirect := some (encodeURIComponent locationHref) }
  else none

/-- Navigation effect of the authenticating gate's `useEffect`. -/
inductive GateNav where
  | stay
  | toPath (p : String)
  | toLoginWith (redirect : String)
deriving DecidableEq, Repr

/-- The `useEffect` body of `AuthenticatingRouteComponent`
(`authenticating.tsx`): while loading, no navigation; once not loading,
navigate to the validated `redirect` value when authenticated, else to
`/login` forwarding that same value. -/
def authenticatingGateEffect (isLoading isAuthenticated : Bool)
    (redirect : String) : GateNav :=
  if !isLoading then
    if isAuthenticated then .toPath redirect
    else .toLoginWith redirect
  else .stay

/-- Outcome of entering the login destination. -/
inductive LoginEntry where
  | redirectTo (p : String)
  | renderForm
deriving DecidableEq, Repr

/-- `beforeLoad` of `src/routes/_unprotected/login.tsx`: when
`context.authentication.currentUser` is truthy, throw a redirect to `/`;
otherwise the route proceeds and its component renders the `LoginForm`. -/
def loginBeforeLoad (currentUser : Tri User) : LoginEntry :=
  if currentUser.truthy then .redirectTo "/" else .renderForm

/-! ## Transport boundary: the auth interceptor -/

/-- The unary-call options seen by the interceptor: the optional `meta`
metadata object (a key/value record) plus all remaining request options,
kept abstract. -/
structure RpcOptions (α : Type) where
  meta : Option (List (String × String))
  rest : α
deriving DecidableEq, Repr

/-- JavaScript truthiness of an `undefined | string` value: `undefined` and
the empty string are falsy. -/
def strTruthy : Option String → Bool
  | none => false
  | some s => !(s == "")

/-- JavaScript object spread `{...m, k: v}`: an existing key is updated in
place, a new key is appended. -/
def objectSpreadSet (m : List (String × String)) (k v : String) :
    List (String × String) :=
  if m.any (fun e => e.1 == k) then
    m.map (fun e => if e.1 = k then (k, v) else e)
  else m ++ [(k, v)]

/-- `authInterceptor` of `src/lib/authInterceptor.ts`, as the transformation
it applies to the options before calling `next`: initialise `meta` to `{}`
when missing, and add the `authorization: Bearer <token>` entry only when the
access token is truthy. -/
def authInterceptor (accessToken : Option String) (options : RpcOptions α) :
    RpcOptions α :=
  let options1 :=
    if options.meta.isNone then { options with meta := some [] } else options
  if strTruthy accessToken then
    { options1 with
        meta := some (objectSpreadSet (options1.meta.getD []) "authorization"
          ("Bearer " ++ accessToken.getD "")) }
  else options1

/-- The metadata entries of an options record (`{}` when `meta` is missing). -/
def metaEntries (o : RpcOptions α) : List (String × String) := o.meta.getD []

/-- Lookup of a metadata key. -/
def metaLookup (o : RpcOptions α) (k : String) : Option String :=
  (metaEntries o).lookup k

/-- Whether a path string begins with `/` (code point 47). -/
def startsWithSlash (s : String) : Bool :=
  match s.data with
  | [] => false
  | c :: _ => c == Char.ofNat 47

/-- A concrete user, as mapped from a well-formed server response. -/
def userEx : User :=
  userFromUserResponse
    { id := "u1", email := "a@b.com", name := "Ada", role := "user",
      isActive := true, isVerified := true, createdOn := none }

/-- A concrete AUTHENTICATED session. -/
def authSessionEx : Session :=
  { isLoading := false, accessToken := .val "tok1", currentUser := .val userEx }

/-- A server response carrying a role outside the closed enumeration. -/
def roleCexResponse : UserResponse :=
  { id := "u1", email := "a@b.com", name := "Ada", role := "superadmin",
    isActive := true, isVerified := true, createdOn := none }

/-- First code point of a string, 0 when empty. -/
def firstCharCode (s : String) : Nat :=
  match s.data with
  | [] => 0
  | c :: _ => c.toNat

/-- Concrete request options with no metadata and a boolean payload. -/
def optsEx : RpcOptions Bool := { meta := none, rest := true }

/-! ## Theorems -/

/-- Claim C1: in every reachable Session state, `accessToken` is a concrete
string iff `currentUser` is a concrete `User`, and the two fields are `Null`
together and `Absent` together — the three operations never set one without
the other. -/
theorem C1_pairing_invariant (s : Session) (h : Reachable s) :
    ((∃ t, s.accessToken = Tri.val t) ↔ (∃ u, s.currentUser = Tri.val u)) ∧
    (s.accessToken = Tri.null ↔ s.currentUser = Tri.null) ∧
    (s.accessToken = Tri.absent ↔ s.currentUser = Tri.absent) := by
  induction h with
  | init => simp [initialSession]
  | inflight _ ih => simpa [inFlight] using ih
  | refresh t _ _ =>
    rcases t with r | e
    · rcases r with ⟨tok, u⟩
      rcases u with _ | u
      · simp [refreshAccessToken, inFlight]
      · by_cases htok : tok = "" <;>
          simp [refreshAccessToken, inFlight, htok]
    · simp [refreshAccessToken, inFlight]
  | login email password t _ _ =>
    rcases t with r | e
    · rcases r with ⟨tok, u⟩
      rcases u with _ | u
      · simp [handleLogin, inFlight]
      · by_cases htok : tok = "" <;>
          simp [handleLogin, inFlight, htok]
    · simp [handleLogin, inFlight]
  | logout t _ ih =>
    rcases t with r | e
    · rcases r with ⟨b⟩
      rcases b with _ | _
      · simpa [handleLogout, inFlight] using ih
      · simp [handleLogout, inFlight]
    · simpa [handleLogout, inFlight] using ih

/-- Claim C1, exercised at the initial state. -/
theorem C1_pairing_invariant_witness :
    ((∃ t, initialSession.accessToken = Tri.val t) ↔
      (∃ u, initialSession.currentUser = Tri.val u)) ∧
    (initialSession.accessToken = Tri.null ↔
      initialSession.currentUser = Tri.null) ∧
    (initialSession.accessToken = Tri.absent ↔
      initialSession.currentUser = Tri.absent) :=
  C1_pairing_invariant initialSession Reachable.init

/-- Claim C2: each of the three mutating operations exposes
`isLoading = true` while suspended at its transport call, and every
completion path — success, caught failure, or re-thrown failure — ends with
`isLoading = false` via the `finally` cleanup. -/
theorem C2_loading_bracket (s : Session) (email password : String)
    (t1 t2 : Outcome AuthResponse) (t3 : Outcome LogoutResponse) :
    (inFlight s).isLoading = true ∧
    (refreshAccessToken s t1).1.isLoading = false ∧
    (handleLogin s email password t2).1.isLoading = false ∧
    (handleLogout s t3).1.isLoading = false := by
  refine ⟨rfl, ?_, ?_, ?_⟩
  · rcases t1 with r | e
    · rcases r with ⟨tok, u⟩
      rcases u with _ | u
      · rfl
      · by_cases htok : tok = "" <;> simp [refreshAccessToken, inFlight, htok]
    · rfl
  · rcases t2 with r | e
    · rcases r with ⟨tok, u⟩
      rcases u with _ | u
      · rfl
      · by_cases htok : tok = "" <;> simp [handleLogin, inFlight, htok]
    · rfl
  · rcases t3 with r | e
    · rcases r with ⟨b⟩
      rcases b with _ | _ <;> rfl
    · rfl

/-- Claim C3: every failing bootstrap refresh — transport rejection, or a
response missing a non-empty `accessToken` or a defined `user` — ends in the
UNAUTHENTICATED state with both fields `Null`, and the async function
resolves normally (the error is swallowed, never propagated). -/
theorem C3_refresh_failure_swallowed (s : Session) (t : Outcome AuthResponse)
    (h : authCallFails t = true) :
    refreshAccessToken s t =
      ({ isLoading := false, accessToken := Tri.null,
         currentUser := Tri.null }, none) := by
  rcases t with r | e
  · rcases r with ⟨tok, u⟩
    rcases u with _ | u
    · rfl
    · have htok : tok = "" := by
        simpa [authCallFails, authResponseIncomplete] using h
      simp [refreshAccessToken, inFlight, htok]
  · rfl

/-- Claim C3, exercised at a transport rejection from the initial state. -/
theorem C3_refresh_failure_swallowed_witness :
    authCallFails (Outcome.err "network unreachable") = true ∧
    refreshAccessToken initialSession (Outcome.err "network unreachable") =
      ({ isLoading := false, accessToken := Tri.null,
         currentUser := Tri.null }, none) :=
  ⟨rfl, C3_refresh_failure_swallowed initialSession _ rfl⟩

/-- Claim C4: when the logout transport call rejects or reports
`success: false`, `handleLogout` re-raises the error and leaves
`accessToken` and `currentUser` exactly as they were; from an AUTHENTICATED
session it therefore stays AUTHENTICATED while the caller observes the
error. -/
theorem C4_logout_failure_atomic (s : Session) (t : Outcome LogoutResponse)
    (h : logoutCallFails t = true) :
    (handleLogout s t).1.accessToken = s.accessToken ∧
    (handleLogout s t).1.currentUser = s.currentUser ∧
    (∃ e, (handleLogout s t).2 = some e) ∧
    (s.isAuthenticated = true → (handleLogout s t).1.isAuthenticated = true) := by
  rcases t with r | e
  · rcases r with ⟨b⟩
    rcases b with _ | _
    · exact ⟨rfl, rfl, ⟨AUTHENTICATION_ERRORS.INVALID_LOGOUT, rfl⟩,
        fun hs => by simpa [handleLogout, inFlight, Session.isAuthenticated]
          using hs⟩
    · simp [logoutCallFails] at h
  · exact ⟨rfl, rfl, ⟨e, rfl⟩,
      fun hs => by simpa [handleLogout, inFlight, Session.isAuthenticated]
        using hs⟩

/-- Claim C4, exercised from a concrete AUTHENTICATED session against a
`success: false` response. -/
theorem C4_logout_failure_atomic_witness :
    logoutCallFails (Outcome.ok { success := false }) = true ∧
    authSessionEx.isAuthenticated = true ∧
    (handleLogout authSessionEx (Outcome.ok { success := false })).1.accessToken =
      authSessionEx.accessToken ∧
    (handleLogout authSessionEx (Outcome.ok { success := false })).1.currentUser =
      authSessionEx.currentUser ∧
    (∃ e, (handleLogout authSessionEx (Outcome.ok { success := false })).2 = some e) ∧
    (handleLogout authSessionEx (Outcome.ok { success := false })).1.isAuthenticated =
      true := by
  have h := C4_logout_failure_atomic authSessionEx
    (Outcome.ok { success := false }) rfl
  exact ⟨rfl, rfl, h.1, h.2.1, h.2.2.1, h.2.2.2 rfl⟩

/-- Claim C5: every failing `handleLogin` — transport rejection, or a
response missing a non-empty `accessToken` or a defined `user` — sets both
fields to `Null` and re-raises the failure to the caller. -/
theorem C5_login_failure (s : Session) (email password : String)
    (t : Outcome AuthResponse) (h : authCallFails t = true) :
    (handleLogin s email password t).1 =
      { isLoading := false, accessToken := Tri.null, currentUser := Tri.null } ∧
    (∃ e, (handleLogin s email password t).2 = some e) := by
  rcases t with r | e
  · rcases r with ⟨tok, u⟩
    rcases u with _ | u
    · exact ⟨rfl, ⟨AUTHENTICATION_ERRORS.INVALID_LOGIN, rfl⟩⟩
    · have htok : tok = "" := by
        simpa [authCallFails, authResponseIncomplete] using h
      subst htok
      exact ⟨rfl, ⟨AUTHENTICATION_ERRORS.INVALID_LOGIN, rfl⟩⟩
  · exact ⟨rfl, ⟨e, rfl⟩⟩

/-- Claim C5, exercised at a rejected login from the initial state. -/
theorem C5_login_failure_witness :
    authCallFails (Outcome.err "invalid credentials") = true ∧
    (handleLogin initialSession "a@b.com" "bad"
        (Outcome.err "invalid credentials")).1 =
      { isLoading := false, accessToken := Tri.null, currentUser := Tri.null } ∧
    (∃ e, (handleLogin initialSession "a@b.com" "bad"
        (Outcome.err "invalid credentials")).2 = some e) := by
  have h := C5_login_failure initialSession "a@b.com" "bad"
    (Outcome.err "invalid credentials") rfl
  exact ⟨rfl, h.1, h.2⟩

/-- Claim C6, counterexample: for the unrecognized role `"superadmin"`,
`userFromUserResponse` yields `Role.user`, not the least-privileged
`Role.guest` the claim requires. -/
theorem C6_role_fallback_counterexample :
    isRole roleCexResponse.role = false ∧
    (userFromUserResponse roleCexResponse).role = Role.user ∧
    (userFromUserResponse roleCexResponse).role ≠ Role.guest := by
  refine ⟨rfl, rfl, ?_⟩
  decide

/-- Claim C6 as amended: `userFromUserResponse` maps a role value outside the
closed enumeration to `Role.User` (the enum member whose wire value is
`"user"`), and preserves role values inside the enumeration unchanged. -/
theorem C6_role_fallback_amended (rpc : UserResponse) :
    (isRole rpc.role = true ∧
      (userFromUserResponse rpc).role.toWire = rpc.role) ∨
    (isRole rpc.role = false ∧ (userFromUserResponse rpc).role = Role.user) := by
  by_cases h : isRole rpc.role = true
  · left
    refine ⟨h, ?_⟩
    have hmem : rpc.role = "admin" ∨ rpc.role = "user" ∨ rpc.role = "guest" := by
      simpa [isRole, roleValues, List.contains] using h
    rcases hmem with h1 | h1 | h1 <;>
      simp [userFromUserResponse, isRole, roleValues, roleOfWire, Role.toWire, h1]
  · right
    have h0 : isRole rpc.role = false := by
      simp at h
      exact h
    exact ⟨h0, by simp [userFromUserResponse, h0]⟩

lemma schemaAuth_pos (v : String)
    (hc : authenticatingRedirectPaths.contains v = true) :
    redirectSearchSchemaAuthenticating (some v) = v := by
  have hdef : redirectSearchSchemaAuthenticating (some v) =
      if authenticatingRedirectPaths.contains v then v else "/" := rfl
  simp only [hdef, hc]
  simp

lemma schemaAuth_neg (v : String)
    (hc : authenticatingRedirectPaths.contains v = false) :
    redirectSearchSchemaAuthenticating (some v) = "/" := by
  have hdef : redirectSearchSchemaAuthenticating (some v) =
      if authenticatingRedirectPaths.contains v then v else "/" := rfl
  simp only [hdef, hc]
  simp

lemma schemaLogin_pos (v : String)
    (hc : loginRedirectPaths.contains v = true) :
    redirectSearchSchemaLogin (some v) = v := by
  have hdef : redirectSearchSchemaLogin (some v) =
      if loginRedirectPaths.contains v then v else "/" := rfl
  simp only [hdef, hc]
  simp

lemma schemaLogin_neg (v : String)
    (hc : loginRedirectPaths.contains v = false) :
    redirectSearchSchemaLogin (some v) = "/" := by
  have hdef : redirectSearchSchemaLogin (some v) =
      if loginRedirectPaths.contains v then v else "/" := rfl
  simp only [hdef, hc]
  simp

/-- Claim C7: for each of the two redirect schemas (the authenticating
destination's and the login destination's), a `redirect` value inside that
destination's closed path set is accepted unchanged, any other value — and a
missing parameter — resolves to the root `"/"`, and the resolved value always
lies inside the closed set. -/
theorem C7_redirect_sanitization (v : String) :
    ((authenticatingRedirectPaths.contains v = true ∧
        redirectSearchSchemaAuthenticating (some v) = v) ∨
      (authenticatingRedirectPaths.contains v = false ∧
        redirectSearchSchemaAuthenticating (some v) = "/")) ∧
    ((loginRedirectPaths.contains v = true ∧
        redirectSearchSchemaLogin (some v) = v) ∨
      (loginRedirectPaths.contains v = false ∧
        redirectSearchSchemaLogin (some v) = "/")) ∧
    authenticatingRedirectPaths.contains
      (redirectSearchSchemaAuthenticating (some v)) = true ∧
    loginRedirectPaths.contains (redirectSearchSchemaLogin (some v)) = true ∧
    redirectSearchSchemaAuthenticating none = "/" ∧
    redirectSearchSchemaLogin none = "/" := by
  refine ⟨?_, ?_, ?_, ?_, rfl, rfl⟩
  · cases hc : authenticatingRedirectPaths.contains v
    · exact Or.inr ⟨rfl, schemaAuth_neg v hc⟩
    · exact Or.inl ⟨rfl, schemaAuth_pos v hc⟩
  · cases hc : loginRedirectPaths.contains v
    · exact Or.inr ⟨rfl, schemaLogin_neg v hc⟩
    · exact Or.inl ⟨rfl, schemaLogin_pos v hc⟩
  · cases hc : authenticatingRedirectPaths.contains v
    · rw [schemaAuth_neg v hc]
      decide
    · rw [schemaAuth_pos v hc]
      exact hc
  · cases hc : loginRedirectPaths.contains v
    · rw [schemaLogin_neg v hc]
      decide
    · rw [schemaLogin_pos v hc]
      exact hc

/-- Claim C9: entering the login destination with a concrete `currentUser`
redirects to the root `"/"` without rendering the form, and with an `Absent`
or `Null` `currentUser` no redirect is raised and the form is rendered. -/
theorem C9_login_redirect_away (cu : Tri User) :
    (loginBeforeLoad cu = LoginEntry.redirectTo "/" ↔ ∃ u, cu = Tri.val u) ∧
    (loginBeforeLoad cu = LoginEntry.renderForm ↔
      (cu = Tri.absent ∨ cu = Tri.null)) := by
  cases cu <;> simp [loginBeforeLoad, Tri.truthy]

lemma encode_slash_head (p : String) (h : startsWithSlash p = true) :
    firstCharCode (encodeURIComponent p) = 37 := by
  rcases hd : p.data with _ | ⟨c, cs⟩
  · rw [startsWithSlash, hd] at h
    simp at h
  · rw [startsWithSlash, hd] at h
    have hc : c = Char.ofNat 47 := by
      simpa using h
    subst hc
    have hmk : encodeURIComponent p =
        String.mk (encodeChar (Char.ofNat 47) ++ encodeList cs) := by
      rw [encodeURIComponent, hd, encodeList]
    have he : encodeChar (Char.ofNat 47) =
        [Char.ofNat 37, Char.ofNat 50, Char.ofNat 70] := by decide
    rw [hmk, he]
    rfl

lemma schemaAuth_percent (v : String) (h : firstCharCode v = 37) :
    redirectSearchSchemaAuthenticating (some v) = "/" := by
  apply schemaAuth_neg
  cases hc : authenticatingRedirectPaths.contains v
  · rfl
  · exfalso
    have hmem : v = "/" ∨ v = "/account" ∨ v = "/users" := by
      simpa [authenticatingRedirectPaths] using hc
    rcases hmem with h1 | h1 | h1 <;> subst h1 <;>
      exact absurd h (by decide)

/-- Claim C8, counterexample: the protected-route check for `/account`
produces the percent-encoded redirect value `%2Faccount`; the authenticating
schema coerces that value to `/`, so once loading ends with the user
authenticated the gate navigates to `/` — not to the decoded original target
`/account` the claim requires. -/
theorem C8_gate_resolution_counterexample :
    protectedBeforeLoad false "/account" =
      some { dest := "/authenticating", redirect := some "%2Faccount" } ∧
    redirectSearchSchemaAuthenticating (some "%2Faccount") = "/" ∧
    authenticatingGateEffect false true
      (redirectSearchSchemaAuthenticating (some "%2Faccount")) =
      GateNav.toPath "/" ∧
    GateNav.toPath "/" ≠ GateNav.toPath "/account" := by
  exact ⟨by decide, rfl, rfl, by decide⟩

/-- Claim C8 as amended: while `isLoading` is true the authenticating gate
performs no navigation; once `isLoading` is false it navigates to exactly the
schema-validated redirect value when `isAuthenticated` is true, or to the
login destination carrying that same value when false — never a third
destination; and for every entry redirected there from a protected path
(whose `redirect` value is the percent-encoded path produced by the
protected-route check), the validated value is the root `/`, not the original
path. -/
theorem C8_gate_resolution_amended (isAuthenticated : Bool)
    (raw : Option String) (p : String) :
    authenticatingGateEffect true isAuthenticated
      (redirectSearchSchemaAuthenticating raw) = GateNav.stay ∧
    authenticatingGateEffect false true (redirectSearchSchemaAuthenticating raw) =
      GateNav.toPath (redirectSearchSchemaAuthenticating raw) ∧
    authenticatingGateEffect false false (redirectSearchSchemaAuthenticating raw) =
      GateNav.toLoginWith (redirectSearchSchemaAuthenticating raw) ∧
    (startsWithSlash p = true →
      redirectSearchSchemaAuthenticating (some (encodeURIComponent p)) = "/") :=
  ⟨rfl, rfl, rfl, fun h => schemaAuth_percent _ (encode_slash_head p h)⟩

/-- Claim C8 as amended, exercised at the protected path `/account`. -/
theorem C8_gate_resolution_amended_witness :
    startsWithSlash "/account" = true ∧
    redirectSearchSchemaAuthenticating
      (some (encodeURIComponent "/account")) = "/" := by
  have h := C8_gate_resolution_amended true (some "/account") "/account"
  exact ⟨by decide, h.2.2.2 (by decide)⟩

lemma lookup_map_set (m : List (String × String)) (k v : String)
    (h : m.any (fun e => e.1 == k) = true) :
    ((m.map (fun e => if e.1 = k then (k, v) else e)).lookup k) = some v := by
  induction m with
  | nil => simp at h
  | cons e m ih =>
    obtain ⟨ek, ev⟩ := e
    by_cases hek : ek = k
    · subst hek
      simp [List.lookup_cons]
    · have hke : (k == ek) = false :=
        beq_eq_false_iff_ne.mpr fun he => hek he.symm
      have hm : m.any (fun x => x.1 == k) = true := by
        have hek2 : (ek == k) = false := beq_eq_false_iff_ne.mpr hek
        simpa [List.any_cons, hek2] using h
      simpa [List.lookup_cons, hek, hke] using ih hm

lemma lookup_append_new (m : List (String × String)) (k v : String)
    (h : m.any (fun e => e.1 == k) = false) :
    ((m ++ [(k, v)]).lookup k) = some v := by
  induction m with
  | nil => simp [List.lookup_cons]
  | cons e m ih =>
    obtain ⟨ek, ev⟩ := e
    have h1 : (ek == k) = false ∧ m.any (fun x => x.1 == k) = false := by
      simpa [List.any_cons] using h
    have hke : (k == ek) = false :=
      beq_eq_false_iff_ne.mpr fun he => (beq_eq_false_iff_ne.mp h1.1) he.symm
    simpa [List.cons_append, List.lookup_cons, hke] using ih h1.2

lemma lookup_objectSpreadSet (m : List (String × String)) (k v : String) :
    ((objectSpreadSet m k v).lookup k) = some v := by
  rw [objectSpreadSet]
  cases h : m.any (fun e => e.1 == k)
  · simpa using lookup_append_new m k v h
  · simpa using lookup_map_set m k v h

/-- Claim C10: the interceptor passes the non-metadata request options to the
next interceptor unchanged; when the access token is a non-empty string the
outgoing metadata carries `authorization = "Bearer " ++ token`, and when the
token is `undefined` or empty the metadata entries are exactly the incoming
ones — no authorization entry is added. -/
theorem C10_bearer_attachment (α : Type) (opts : RpcOptions α)
    (tok : Option String) :
    (authInterceptor tok opts).rest = opts.rest ∧
    (∀ t, tok = some t → ¬t = "" →
      metaLookup (authInterceptor tok opts) "authorization" =
        some ("Bearer " ++ t)) ∧
    (strTruthy tok = false →
      metaEntries (authInterceptor tok opts) = metaEntries opts) := by
  refine ⟨?_, ?_, ?_⟩
  · cases h : strTruthy tok <;> cases hm : opts.meta <;>
      simp [authInterceptor, h, hm]
  · intro t ht hne
    subst ht
    have hst : strTruthy (some t) = true := by
      simp [strTruthy, hne]
    rw [metaLookup, metaEntries, authInterceptor]
    simp only [hst, if_true]
    simpa using lookup_objectSpreadSet _ "authorization" ("Bearer " ++ t)
  · intro h
    rw [authInterceptor]
    simp only [h]
    cases hm : opts.meta <;> simp [metaEntries, hm]

/-- Claim C10, exercised with a concrete token and with no token. -/
theorem C10_bearer_attachment_witness :
    metaLookup (authInterceptor (some "tok1") optsEx) "authorization" =
      some ("Bearer " ++ "tok1") ∧
    metaEntries (authInterceptor none optsEx) = metaEntries optsEx ∧
    (authInterceptor (some "tok1") optsEx).rest = optsEx.rest := by
  have h1 := C10_bearer_attachment Bool optsEx (some "tok1")
  have h2 := C10_bearer_attachment Bool optsEx none
  exact ⟨h1.2.1 "tok1" rfl (by decide), h2.2.2 rfl, h1.1⟩

end AuthReact
